import Mathlib

set_option autoImplicit false

/-!
Shallow embedding of the register-based device client of the
`integration_circular` repository (`custom_components/circular`):
the clamp-based numeric setters, the register merge/decode state machine
(`CircularApiData`), the eco-mode drive algorithm (`CircularApiClient`)
and the HTTP retry executor (`HTTPRequestExecutor`), together with
theorems settling the specification claims about them.

Python `float` values are modelled as `ℚ` (every value the code ever
computes here is dyadic and no rounding behaviour is claimed);
Python `int` as `ℤ`; register pair lists as `List (ℤ × ℤ)`.
-/

namespace Circular

/-- Register pair lists (`params: list[list[int]]` of `WinetGetRegisterResult`). -/
abbrev Params := List (ℤ × ℤ)

/-- Python `int(x)` on a float: truncation toward zero. -/
def pyint (q : ℚ) : ℤ := if 0 ≤ q then ⌊q⌋ else ⌈q⌉

/-- Source `api.py` `clamp`: `max(valuemin, min(value, valuemax))`. -/
def clamp (value valuemin valuemax : ℚ) : ℚ := max valuemin (min value valuemax)

/-! Constants from `const.py`. -/

def MIN_DELTA_ECOMODE_TEMP : ℤ := 0

def MAX_DELTA_ECOMODE_TEMP : ℤ := 5

def MIN_THERMOSTAT_TEMP : ℤ := 5

def MAX_THERMOSTAT_TEMP : ℤ := 40

def MIN_POWER : ℤ := 1

def MAX_POWER : ℤ := 5

def MIN_FAN_SPEED : ℤ := 0

def MAX_FAN_SPEED : ℤ := 6

/-- Source `winet/const.py` `WinetRegister` enum. -/
inductive WinetRegister
  | STATUS
  | ALARMS_BITS
  | UNKNOWN_REGISTER_2_1
  | TEMPERATURE_PROBE
  | TEMPERATURE_INTERNE
  | TEMPERATURE_INTERNE_1
  | TEMPERATURE_INTERNE_2
  | TEMPERATURE_INTERNE_3
  | UNKNOWN_REGISTER_2_2
  | TEMPERATURE_SET
  | POWER_SET
  | UNKNOWN_REGISTER_4_1
  | UNKNOWN_REGISTER_4_2
  | UNKNOWN_REGISTER_4_3
  | UNKNOWN_REGISTER_4_4
  | UNKNOWN_REGISTER_4_5
  | FAN_AR_SPEED
  | FAN_AV_SPEED
  | ACT_T_EXT
deriving DecidableEq

/-- The `.value` of each `WinetRegister` member. -/
def WinetRegister.value : WinetRegister → ℤ
  | .STATUS => 2
  | .ALARMS_BITS => 3
  | .UNKNOWN_REGISTER_2_1 => 5
  | .TEMPERATURE_PROBE => 6
  | .TEMPERATURE_INTERNE => 7
  | .TEMPERATURE_INTERNE_1 => 8
  | .TEMPERATURE_INTERNE_2 => 9
  | .TEMPERATURE_INTERNE_3 => 10
  | .UNKNOWN_REGISTER_2_2 => 37
  | .TEMPERATURE_SET => 50
  | .POWER_SET => 51
  | .UNKNOWN_REGISTER_4_1 => 60
  | .UNKNOWN_REGISTER_4_2 => 61
  | .UNKNOWN_REGISTER_4_3 => 62
  | .UNKNOWN_REGISTER_4_4 => 63
  | .UNKNOWN_REGISTER_4_5 => 64
  | .FAN_AR_SPEED => 187
  | .FAN_AV_SPEED => 188
  | .ACT_T_EXT => 191

/-- Source `winet/const.py` `WinetRegisterKey` enum. -/
inductive WinetRegisterKey
  | POLL_DATA
  | CHANGE_STATUS
deriving DecidableEq

/-- Source `winet/const.py` `WinetRegisterCategory` enum. -/
inductive WinetRegisterCategory
  | NONE
  | POLL_CATEGORY_2
  | POLL_CATEGORY_4
  | POLL_CATEGORY_6
deriving DecidableEq

/-- One call to `WinetAPILocal.set_register(registerid, value)`:
the transmitted register id and (integer) value. -/
structure SetRegisterCall where
  regId : ℤ
  value : ℤ
deriving DecidableEq

/-- Source `CircularApiClient.set_fan_speed`: clamp `int(value)` to
`[MIN_FAN_SPEED, MAX_FAN_SPEED]`, transmit `int` of the result. -/
def set_fan_speed (value : ℚ) : SetRegisterCall :=
  ⟨WinetRegister.FAN_AR_SPEED.value,
   pyint (clamp ((pyint value : ℚ)) (MIN_FAN_SPEED : ℚ) (MAX_FAN_SPEED : ℚ))⟩

/-- Source `CircularApiClient.set_power`: clamp `int(value)` to
`[MIN_POWER, MAX_POWER]`, transmit `int` of the result. -/
def set_power (value : ℚ) : SetRegisterCall :=
  ⟨WinetRegister.POWER_SET.value,
   pyint (clamp ((pyint value : ℚ)) (MIN_POWER : ℚ) (MAX_POWER : ℚ))⟩

/-- Source `CircularApiClient.set_temperature`: clamp `float(value)` to
`[MIN_THERMOSTAT_TEMP, MAX_THERMOSTAT_TEMP]` as a float, transmit
`int` of the clamped float. -/
def set_temperature (value : ℚ) : SetRegisterCall :=
  ⟨WinetRegister.TEMPERATURE_SET.value,
   pyint (clamp value (MIN_THERMOSTAT_TEMP : ℚ) (MAX_THERMOSTAT_TEMP : ℚ))⟩

/-- Source `CircularApiClient.set_delta_temp`: clamp `int(value)` to
`[MIN_DELTA_ECOMODE_TEMP, MAX_DELTA_ECOMODE_TEMP]`; stores the result in
`_delta_ecomode` (no transmission). -/
def set_delta_temp (value : ℚ) : ℤ :=
  pyint (clamp ((pyint value : ℚ)) (MIN_DELTA_ECOMODE_TEMP : ℚ) (MAX_DELTA_ECOMODE_TEMP : ℚ))

/-- Source `api.py` `CircularDeviceStatus` enum. -/
inductive CircularDeviceStatus
  | OFF
  | WAIT_FOR_FLAME
  | POWER_ON
  | UNKNOWN_1
  | STABLE_FLAME
  | WORK
  | BRAZIER_CLEANING
  | FINAL_CLEANING
  | ECO_STOP
  | MODULA
  | UNKNOWN_2
  | ALARM
  | UNKNOWN
deriving DecidableEq

/-- Python `CircularDeviceStatus(code)`: `some` member on a valid code,
`none` models the `ValueError` the enum constructor raises otherwise. -/
def CircularDeviceStatus.ofCode? (n : ℤ) : Option CircularDeviceStatus :=
  if n = 0 then some .OFF
  else if n = 1 then some .WAIT_FOR_FLAME
  else if n = 2 then some .POWER_ON
  else if n = 3 then some .UNKNOWN_1
  else if n = 4 then some .STABLE_FLAME
  else if n = 5 then some .WORK
  else if n = 6 then some .BRAZIER_CLEANING
  else if n = 7 then some .FINAL_CLEANING
  else if n = 8 then some .ECO_STOP
  else if n = 9 then some .MODULA
  else if n = 10 then some .UNKNOWN_2
  else if n = 11 then some .ALARM
  else if n = -1 then some .UNKNOWN
  else none

/-- Source `api.py` `CircularDeviceAlarm` enum. -/
inductive CircularDeviceAlarm
  | NO_ALARM
  | BLAKC_OUT
  | SMOKE_PROBE_FAILURE
  | SMOKE_OVERTEMPERATURE
  | EXTRACTOR_MALFUNCTION
  | FAILED_IGNITION
  | NO_PELLETS
  | OPEN_PELLET_COMPARTMENT
  | LACK_OF_PRESSURE
  | EXTRACTOR_TURN
  | TARIERE_PHASE
  | TARIERE_TRIAC
  | CLEANER_FAILURE
  | TARIERE_ALARM
  | THERMAL_SAFETY
deriving DecidableEq

/-- Python `CircularDeviceAlarm(code)` (`ValueError` modelled as `none`). -/
def CircularDeviceAlarm.ofCode? (n : ℤ) : Option CircularDeviceAlarm :=
  if n = 0 then some .NO_ALARM
  else if n = 1 then some .BLAKC_OUT
  else if n = 2 then some .SMOKE_PROBE_FAILURE
  else if n = 3 then some .SMOKE_OVERTEMPERATURE
  else if n = 4 then some .EXTRACTOR_MALFUNCTION
  else if n = 5 then some .FAILED_IGNITION
  else if n = 6 then some .NO_PELLETS
  else if n = 7 then some .OPEN_PELLET_COMPARTMENT
  else if n = 8 then some .LACK_OF_PRESSURE
  else if n = 9 then some .THERMAL_SAFETY
  else if n = 12 then some .EXTRACTOR_TURN
  else if n = 14 then some .TARIERE_PHASE
  else if n = 15 then some .TARIERE_TRIAC
  else if n = 19 then some .CLEANER_FAILURE
  else if n = 25 then some .TARIERE_ALARM
  else none

/-- Source `winet/const.py` `WinetProductModel` enum. -/
inductive WinetProductModel
  | UNSET
  | L023_1
  | N100_O047
  | O086
  | L023_2
  | U047
  | PNEM00005
deriving DecidableEq

/-- Python `WinetProductModel(code)` (`ValueError` modelled as `none`). -/
def WinetProductModel.ofCode? (n : ℤ) : Option WinetProductModel :=
  if n = 0 then some .UNSET
  else if n = 1 then some .L023_1
  else if n = 2 then some .N100_O047
  else if n = 3 then some .O086
  else if n = 4 then some .L023_2
  else if n = 5 then some .U047
  else if n = 8 then some .PNEM00005
  else none

/-- Exceptions the embedded code can raise: `WinetAPIError(msg)` from
`winet/exceptions.py` and Python's builtin `ValueError` (raised by `Enum`
constructors on an invalid code). -/
inductive PyError
  | winetAPIError (msg : String)
  | valueError
deriving DecidableEq

/-- Source `winet/model.py` `WinetGetRegisterResult` pydantic model. -/
structure WinetGetRegisterResult where
  fwupdate : Bool
  localweb : ℤ
  model : ℤ
  cat : ℤ
  signal : ℤ
  authlevel : ℤ
  name : String
  alr : String
  params : Params

/-- The pydantic defaults of `WinetGetRegisterResult`. -/
def initRawData : WinetGetRegisterResult :=
  { fwupdate := false, localweb := 0, model := 0, cat := 0, signal := 0,
    authlevel := 0, name := "CIRCULAR8", alr := "", params := [] }

/-- Source `api.py` `CircularApiData`: the raw-data fields (`_rawdata`), the public
decoded fields and the changed-fields set. The public `signal`/`name`/`alr`
mirrors of `_rawdata` are always assigned the same values as the raw ones, so
one field each represents both. -/
structure CircularApiData where
  params : Params
  cat : ℤ
  signal : ℤ
  authlevel : ℤ
  modelCode : ℤ
  name : String
  alr : String
  host : String
  model : WinetProductModel
  status : CircularDeviceStatus
  alarms : List CircularDeviceAlarm
  temperature_read : ℚ
  temperature_set : ℚ
  power_set : ℤ
  fan_speed : ℤ
  delta_ecomode : ℚ
  eco_mode_drive_activated : Bool
  temperature_ask_by_external_entity : ℚ
  auto_regulated_temperature : Bool
  changed_fields : Finset String

/-- Source `CircularApiData.__init__(host)`. -/
def initApiData (host : String) : CircularApiData :=
  { params := [], cat := 0, signal := 0, authlevel := 0, modelCode := 0,
    name := "CIRCULAR8", alr := "", host := host, model := .UNSET,
    status := .UNKNOWN, alarms := [], temperature_read := 0,
    temperature_set := 0, power_set := 0, fan_speed := 0, delta_ecomode := 0,
    eco_mode_drive_activated := false,
    temperature_ask_by_external_entity := 0,
    auto_regulated_temperature := false, changed_fields := ∅ }

/-- Source `CircularApiData.get_changed_fields`: return a copy of the
changed-fields set and clear it (one atomic unit under `_data_lock`). -/
def CircularApiData.get_changed_fields (d : CircularApiData) :
    Finset String × CircularApiData :=
  (d.changed_fields, { d with changed_fields := ∅ })

/-- One step of a Python dict comprehension / `dict.update` on a pair:
overwrite the value in place if the key exists, else append. -/
def dictInsert (d : Params) (key value : ℤ) : Params :=
  if key ∈ d.map Prod.fst then
    d.map (fun p => if p.1 = key then (key, value) else p)
  else d ++ [(key, value)]

/-- Folding `dictInsert` over a pair list (`dict` construction / update). -/
def dictUpdate (d : Params) (ps : Params) : Params :=
  ps.foldl (fun acc p => dictInsert acc p.1 p.2) d

/-- Source `CircularApiData._merge_params_efficiently`: build a dict from the
existing params, update it with the new pairs, convert back to a list. -/
def merge_params_efficiently (existing new_params : Params) : Params :=
  dictUpdate (dictUpdate [] existing) new_params

/-- The scan loop of `CircularApiData._get_register_value`: first pair
whose first component is the register id. -/
def findRegister : Params → ℤ → Option ℤ
  | [], _ => none
  | p :: rest, rid => if p.1 = rid then some p.2 else findRegister rest rid

/-- Source `CircularApiData._get_register_value`: value of the first matching
pair, or `WinetAPIError("RegisterId not found in data")` (the register id
goes only to the logger, not into the raised error). -/
def get_register_value (params : Params) (registerid : WinetRegister) :
    Except PyError ℤ :=
  match findRegister params registerid.value with
  | some v => .ok v
  | none => .error (.winetAPIError "RegisterId not found in data")

/-- Source `CircularApiData._decode_status`: status register value through the
`CircularDeviceStatus` constructor. -/
def decode_status_value (d : CircularApiData) :
    Except PyError CircularDeviceStatus :=
  match get_register_value d.params .STATUS with
  | .error e => .error e
  | .ok v =>
    match CircularDeviceStatus.ofCode? v with
    | some s => .ok s
    | none => .error .valueError

/-- Source `CircularApiData._update_temperature_data`: decode read, set and power
in order (all from the same merged params); the first `WinetAPIError`
aborts the remaining decodes and is swallowed (logged as a warning). -/
def update_temperature_data (d : CircularApiData) : CircularApiData :=
  match get_register_value d.params .TEMPERATURE_PROBE with
  | .error _ => d
  | .ok tr =>
    match get_register_value d.params .TEMPERATURE_SET with
    | .error _ => { d with temperature_read := (tr : ℚ) }
    | .ok ts =>
      match get_register_value d.params .POWER_SET with
      | .error _ =>
        { d with temperature_read := (tr : ℚ), temperature_set := (ts : ℚ) }
      | .ok pw =>
        { d with temperature_read := (tr : ℚ), temperature_set := (ts : ℚ),
                 power_set := pw }

/-- Source `CircularApiData._decode_alarms`: read the alarm byte (`WinetAPIError`
propagates), return unchanged if negative, else clear `alarms` and append
the decoded member (`ValueError` on an invalid code, after the clear). -/
def decode_alarms (d : CircularApiData) : CircularApiData × Option PyError :=
  match get_register_value d.params .ALARMS_BITS with
  | .error e => (d, some e)
  | .ok b =>
    if b < 0 then (d, none)
    else
      let d1 := { d with alarms := [] }
      match CircularDeviceAlarm.ofCode? b with
      | some a => ({ d1 with alarms := [a] }, none)
      | none => (d1, some .valueError)

/-- Source `CircularApiData._decode_fan_speed`. -/
def decode_fan_speed (d : CircularApiData) : CircularApiData × Option PyError :=
  match get_register_value d.params .FAN_AR_SPEED with
  | .error e => (d, some e)
  | .ok v => ({ d with fan_speed := v }, none)

/-- Source `CircularApiData._update_alarm_data`: alarms then fan speed, with
`WinetAPIError` caught and logged; a `ValueError` escapes. -/
def update_alarm_data (d : CircularApiData) : CircularApiData × Option PyError :=
  match decode_alarms d with
  | (d1, some PyError.valueError) => (d1, some .valueError)
  | (d1, some (PyError.winetAPIError _)) => (d1, none)
  | (d1, none) =>
    match decode_fan_speed d1 with
    | (d2, some (PyError.winetAPIError _)) => (d2, none)
    | (d2, e) => (d2, e)

/-- The raw-data and public metadata assignments at the top of
`CircularApiData.update`: merged params, `cat`, `signal`, `alr`,
`authlevel`, raw `model` code and `name`. -/
def applyMetadata (d : CircularApiData) (newdata : WinetGetRegisterResult) :
    CircularApiData :=
  { d with params := merge_params_efficiently d.params newdata.params,
           cat := newdata.cat, signal := newdata.signal, alr := newdata.alr,
           authlevel := newdata.authlevel, modelCode := newdata.model,
           name := newdata.name }

/-- The category dispatch of `CircularApiData.update`: decode the
category-specific fields and mark the category's field names changed
(unconditionally — whether or not any value differs). -/
def categoryStep (d : CircularApiData)
    (category : Option WinetRegisterCategory) :
    CircularApiData × Option PyError :=
  if category = some .POLL_CATEGORY_2 then
    ({ update_temperature_data d with
        changed_fields := (update_temperature_data d).changed_fields ∪
          {"temperature_read", "temperature_set", "power_set", "status"} },
     none)
  else if category = some .POLL_CATEGORY_6 then
    match update_alarm_data d with
    | (d3, some e) => (d3, some e)
    | (d3, none) =>
      ({ d3 with changed_fields := d3.changed_fields ∪
          {"alarms", "fan_speed"} }, none)
  else if category = some .POLL_CATEGORY_4 then
    ({ d with changed_fields := insert "fan_configuration" d.changed_fields },
     none)
  else (d, none)

/-- The final `try: self._decode_status() ... except WinetAPIError: pass`
of `CircularApiData.update`: decode and mark "status" changed, swallow a
`WinetAPIError` (status register absent), let a `ValueError` escape. -/
def statusStep (d : CircularApiData) : CircularApiData × Option PyError :=
  match decode_status_value d with
  | .ok s =>
    ({ d with status := s,
              changed_fields := insert "status" d.changed_fields }, none)
  | .error (.winetAPIError _) => (d, none)
  | .error .valueError => (d, some .valueError)

/-- Source `CircularApiData.update(newdata, category)`: merge params, copy raw and
public metadata (`WinetProductModel(newdata.model)` raises `ValueError` on
an unknown model code), run the category dispatch, then the status decode.
The second component is the exception the Python method raises, `none` when
it returns normally. -/
def CircularApiData.update (d : CircularApiData)
    (newdata : WinetGetRegisterResult)
    (category : Option WinetRegisterCategory) :
    CircularApiData × Option PyError :=
  match WinetProductModel.ofCode? newdata.model with
  | none => (applyMetadata d newdata, some .valueError)
  | some m =>
    match categoryStep { applyMetadata d newdata with model := m } category with
    | (d3, some e) => (d3, some e)
    | (d3, none) => statusStep d3

/-- Source `CircularApiData.is_heating`: status in `[WORK]`. -/
def CircularApiData.is_heating (d : CircularApiData) : Bool :=
  d.status = CircularDeviceStatus.WORK

/-- Source `CircularApiData.is_ecomode_stop`: status in `[ECO_STOP]`. -/
def CircularApiData.is_ecomode_stop (d : CircularApiData) : Bool :=
  d.status = CircularDeviceStatus.ECO_STOP

/-- Source `CircularApiData.is_on`: status not in `[OFF]`. -/
def CircularApiData.is_on (d : CircularApiData) : Bool :=
  ¬ d.status = CircularDeviceStatus.OFF

/-- The client-side state `CircularApiClient` carries beyond its
`CircularApiData` (`_count_delta_ecomode_asked` and `_delta_ecomode`;
`_delta_ecomode` always holds an `int`: it is `0` initially and
`set_delta_temp` stores `clamp(int(v), 0, 5)`). -/
structure CircularApiClient where
  data : CircularApiData
  count_delta_ecomode_asked : ℤ
  delta_ecomode : ℤ

/-- A network request issued through `WinetAPILocal`. -/
inductive WinetRequest
  | getRegisters (key : WinetRegisterKey) (category : WinetRegisterCategory)
  | setRegister (call : SetRegisterCall)
deriving DecidableEq

/-- Source `CircularApiClient.turn_on`: nothing unless the status is `OFF`, else
one `get_registers(CHANGE_STATUS)` request (default category `NONE`). -/
def turn_on (d : CircularApiData) : List WinetRequest :=
  if d.status ≠ CircularDeviceStatus.OFF then []
  else [.getRegisters .CHANGE_STATUS .NONE]

/-- Source `CircularApiClient.turn_off`: nothing if the status is `OFF`, else one
`get_registers(CHANGE_STATUS)` request (default category `NONE`). -/
def turn_off (d : CircularApiData) : List WinetRequest :=
  if d.status = CircularDeviceStatus.OFF then []
  else [.getRegisters .CHANGE_STATUS .NONE]

/-- Source `CircularApiClient.eco_mode_drive`: the eco-mode two-phase handshake.
Returns the client state afterwards and the `set_register` writes issued
(through `set_temperature`, which clamps and truncates). -/
def eco_mode_drive (c : CircularApiClient) :
    CircularApiClient × List SetRegisterCall :=
  if c.data.eco_mode_drive_activated ∧ c.count_delta_ecomode_asked > 0 then
    let temp_value := c.data.temperature_set
    if c.data.is_ecomode_stop ∧ c.count_delta_ecomode_asked = 1 then
      if c.data.temperature_set - c.data.temperature_read ≤ (c.delta_ecomode : ℚ) then
        (c, [set_temperature (c.data.temperature_read + (c.delta_ecomode : ℚ))])
      else (c, [])
    else if c.data.is_heating ∧ c.count_delta_ecomode_asked > 0 then
      ({ c with count_delta_ecomode_asked := 0 }, [set_temperature temp_value])
    else (c, [])
  else (c, [])

/-- The spec side of C3 (refinement): "plain dictionary-overwrite-merge"
of one snapshot's (id, value) pair list into a register mapping — for each
pair in order, overwrite or insert. -/
def specOverwriteMerge (m : ℤ → Option ℤ) (ps : Params) : ℤ → Option ℤ :=
  ps.foldl (fun acc p => Function.update acc p.1 (some p.2)) m

/-- The spec side of C3 (refinement): folding dictionary-overwrite-merge
over all N snapshots' pair lists, starting from the empty mapping. -/
def specFoldedMapping (snaps : List Params) : ℤ → Option ℤ :=
  snaps.foldl specOverwriteMerge (fun _ => none)

/-- Feeding a sequence of snapshots (each with its category) to
`CircularApiData.update`, keeping the state regardless of raised
exceptions (the Python object keeps its merged params either way). -/
def applyUpdates (d : CircularApiData)
    (snaps : List (WinetGetRegisterResult × Option WinetRegisterCategory)) :
    CircularApiData :=
  snaps.foldl (fun acc s => (acc.update s.1 s.2).1) d

/-- The field names `CircularApiData.update` marks changed for each
category, unconditionally. -/
def catFields : Option WinetRegisterCategory → Finset String
  | some .POLL_CATEGORY_2 =>
    {"temperature_read", "temperature_set", "power_set", "status"}
  | some .POLL_CATEGORY_6 => {"alarms", "fan_speed"}
  | some .POLL_CATEGORY_4 => {"fan_configuration"}
  | _ => ∅

/-- The singleton set of the field name "status" when the status register
is present in a params list, else the empty set. -/
def statusMarker (params : Params) : Finset String :=
  match findRegister params WinetRegister.STATUS.value with
  | some _ => {"status"}
  | none => ∅

/-- The double-update scenario of C6: update, drain, update again with the
same snapshot and category, drain again; the value of the second drain. -/
def secondDrain (d : CircularApiData) (nd : WinetGetRegisterResult)
    (cat : Option WinetRegisterCategory) : Finset String :=
  (((((d.update nd cat).1.get_changed_fields).2.update nd cat).1.get_changed_fields).1)

/-- A concrete category-2 snapshot: only the status register, value 0
(`OFF`), default metadata. -/
def c6Snapshot : WinetGetRegisterResult :=
  { initRawData with params := [(2, 0)] }

/-- A concrete category-2 snapshot with the status register absent and the
temperature probe register present (value 21). -/
def c9Snapshot : WinetGetRegisterResult :=
  { initRawData with params := [(6, 21)] }

/-- The eco-mode example client: `ECO_STOP`, one pending request,
setpoint 18, read temperature 16, delta 2. -/
def ecoClientExample : CircularApiClient :=
  { data := { initApiData "host" with
      status := CircularDeviceStatus.ECO_STOP,
      temperature_set := 18, temperature_read := 16,
      eco_mode_drive_activated := true },
    count_delta_ecomode_asked := 1, delta_ecomode := 2 }

/-- One attempt as seen by the `except` clause of
`HTTPRequestExecutor._execute_with_retry`: the attempt either returns a
payload or raises a transient exception (one of the retried classes). -/
inductive AttemptOutcome (α ε : Type)
  | ok (payload : α)
  | transient (exc : ε)

/-- The exception that propagates out of the executor: either an actual
`WinetAPIConnectionError` or an underlying exception re-raised as is. -/
inductive RaisedException (ε : Type)
  | winetAPIConnectionError (msg : String)
  | underlying (exc : ε)
deriving DecidableEq

/-- Source `WinetAPIConnectionError.__init__(msg, exc)` (`winet/exceptions.py`):
logs a warning, then — `if exc: raise exc` — re-raises the wrapped
exception itself whenever one is passed, so `raise
WinetAPIConnectionError(msg, exc)` propagates `exc`, not the wrapper. -/
def raiseWinetAPIConnectionError {ε : Type} (msg : String) (exc : Option ε) :
    RaisedException ε :=
  match exc with
  | some e => .underlying e
  | none => .winetAPIConnectionError msg

/-- Is the propagated exception an actual `WinetAPIConnectionError`? -/
def RaisedException.isConnectionError {ε : Type} : RaisedException ε → Bool
  | .winetAPIConnectionError _ => true
  | .underlying _ => false

/-- The `while attempt < max_retries` loop of
`HTTPRequestExecutor._execute_with_retry`. `script i` is the outcome of
the i-th call to `_execute_single`; `remaining = max_retries - attempt`;
`delays` counts the `asyncio.sleep(retry_delay)` calls so far; `last` is
`last_exception`. On a transient failure with further attempts left it
sleeps and retries; with none left it raises
`WinetAPIConnectionError(msg, last_exception)`; the fall-through after the
loop raises `WinetAPIConnectionError(msg, None)`. -/
def retryLoop {α ε : Type} (script : ℕ → AttemptOutcome α ε) :
    ℕ → ℕ → ℕ → Option ε → (Except (RaisedException ε) α) × ℕ
  | 0, _, delays, last =>
    (.error (raiseWinetAPIConnectionError "Connection failed" last), delays)
  | remaining + 1, attempt, delays, _ =>
    match script attempt with
    | .ok a => (.ok a, delays)
    | .transient e =>
      if remaining = 0 then
        (.error (raiseWinetAPIConnectionError
          "Connection failed after max_retries attempts" (some e)), delays)
      else retryLoop script remaining (attempt + 1) (delays + 1) (some e)

/-- Source `HTTPRequestExecutor._execute_with_retry` with `max_retries` attempts:
result and number of recorded retry delays. -/
def execute_with_retry {α ε : Type} (max_retries : ℕ)
    (script : ℕ → AttemptOutcome α ε) :
    (Except (RaisedException ε) α) × ℕ :=
  retryLoop script max_retries 0 0 none

/-- Attempts 0 and 1 raise transient errors, attempt 2 returns payload 42. -/
def scriptTwoFailThenOk : ℕ → AttemptOutcome ℕ ℕ :=
  fun i => if i < 2 then .transient i else .ok 42

/-- Every attempt i raises the transient error i. -/
def scriptAllFail : ℕ → AttemptOutcome ℕ ℕ :=
  fun i => .transient i

theorem findRegister_eq_none_iff (d : Params) (k : ℤ) :
    findRegister d k = none ↔ k ∉ d.map Prod.fst := by
  induction d with
  | nil => simp [findRegister]
  | cons p rest ih =>
    by_cases hp : p.1 = k
    · simp [findRegister, hp]
    · simp [findRegister, hp, ih, Ne.symm hp]

theorem findRegister_append (l1 l2 : Params) (k : ℤ) :
    findRegister (l1 ++ l2) k =
      match findRegister l1 k with
      | some v => some v
      | none => findRegister l2 k := by
  induction l1 with
  | nil => simp [findRegister]
  | cons p rest ih =>
    by_cases hp : p.1 = k
    · simp [findRegister, hp]
    · simp [findRegister, hp, ih]

theorem findRegister_overwriteMap (d : Params) (key v k : ℤ) :
    findRegister (d.map (fun p => if p.1 = key then (key, v) else p)) k =
      if k = key then (if key ∈ d.map Prod.fst then some v else none)
      else findRegister d k := by
  induction d with
  | nil => simp [findRegister]
  | cons p rest ih =>
    by_cases hp : p.1 = key
    · by_cases hk : k = key
      · simp [findRegister, hp, hk]
      · simp [findRegister, hp, hk, Ne.symm hk, ih]
    · by_cases hpk : p.1 = k
      · have hk : ¬ k = key := fun h => hp (hpk.trans h)
        simp [findRegister, hp, hpk, hk]
      · by_cases hk : k = key
        · subst hk
          simp only [findRegister, hpk, if_neg hp, if_false]
          rw [ih]
          simp only [if_pos rfl]
          by_cases hm : k ∈ List.map Prod.fst rest
          · simp [hm, List.mem_cons]
          · simp [hm, List.mem_cons, Ne.symm hp]
        · simp [findRegister, hp, hpk, ih, hk]

theorem keys_dictInsert (d : Params) (key v : ℤ) :
    (dictInsert d key v).map Prod.fst =
      if key ∈ d.map Prod.fst then d.map Prod.fst
      else d.map Prod.fst ++ [key] := by
  unfold dictInsert
  by_cases hmem : key ∈ d.map Prod.fst
  · rw [if_pos hmem, if_pos hmem, List.map_map]
    congr 1
    funext p
    by_cases hp : p.1 = key
    · simp [hp]
    · simp [hp]
  · rw [if_neg hmem, if_neg hmem]
    simp

theorem findRegister_dictInsert (d : Params) (key v k : ℤ) :
    findRegister (dictInsert d key v) k =
      if k = key then some v else findRegister d k := by
  unfold dictInsert
  by_cases hmem : key ∈ d.map Prod.fst
  · rw [if_pos hmem, findRegister_overwriteMap, if_pos hmem]
  · rw [if_neg hmem, findRegister_append]
    by_cases hk : k = key
    · have : findRegister d k = none :=
        (findRegister_eq_none_iff d k).2 (hk ▸ hmem)
      rw [this, hk]
      simp [findRegister]
    · cases hd : findRegister d k <;> simp [findRegister, hk, Ne.symm hk]

theorem findRegister_dictUpdate (ps : Params) :
    ∀ (d : Params) (k : ℤ),
      findRegister (dictUpdate d ps) k =
        match findRegister ps.reverse k with
        | some v => some v
        | none => findRegister d k := by
  induction ps with
  | nil => intro d k; simp [dictUpdate, findRegister]
  | cons p rest ih =>
    intro d k
    show findRegister (dictUpdate (dictInsert d p.1 p.2) rest) k = _
    rw [ih, List.reverse_cons, findRegister_append, findRegister_dictInsert]
    cases hr : findRegister rest.reverse k
    · by_cases hk : k = p.1
      · simp [findRegister, hk]
      · simp [findRegister, hk, Ne.symm hk]
    · rfl

theorem keys_dictUpdate_nodup (ps : Params) :
    ∀ d : Params, (d.map Prod.fst).Nodup →
      ((dictUpdate d ps).map Prod.fst).Nodup := by
  induction ps with
  | nil => intro d h; exact h
  | cons p rest ih =>
    intro d h
    show ((dictUpdate (dictInsert d p.1 p.2) rest).map Prod.fst).Nodup
    refine ih _ ?_
    rw [keys_dictInsert]
    by_cases hmem : p.1 ∈ d.map Prod.fst
    · rwa [if_pos hmem]
    · rw [if_neg hmem, List.nodup_append]
      refine ⟨h, List.nodup_singleton _, fun a ha hb => ?_⟩
      rw [List.mem_singleton] at hb
      exact hmem (hb ▸ ha)

theorem merge_keys_nodup (ex nw : Params) :
    ((merge_params_efficiently ex nw).map Prod.fst).Nodup := by
  unfold merge_params_efficiently
  exact keys_dictUpdate_nodup nw _ (keys_dictUpdate_nodup ex [] (by simp))

theorem findRegister_reverse_eq_of_nodup (d : Params)
    (h : (d.map Prod.fst).Nodup) (k : ℤ) :
    findRegister d.reverse k = findRegister d k := by
  induction d with
  | nil => rfl
  | cons p rest ih =>
    simp only [List.map_cons, List.nodup_cons] at h
    rw [List.reverse_cons, findRegister_append, ih h.2]
    by_cases hk : p.1 = k
    · have : findRegister rest k = none := by
        rw [findRegister_eq_none_iff]
        exact fun hmem => h.1 (hk ▸ hmem)
      rw [this]
      simp [findRegister, hk]
    · cases hr : findRegister rest k <;> simp [findRegister, hk, hr]

theorem findRegister_merge (ex nw : Params) (k : ℤ) :
    findRegister (merge_params_efficiently ex nw) k =
      match findRegister nw.reverse k with
      | some v => some v
      | none => findRegister ex.reverse k := by
  unfold merge_params_efficiently
  rw [findRegister_dictUpdate]
  cases hn : findRegister nw.reverse k
  · rw [findRegister_dictUpdate]
    cases he : findRegister ex.reverse k <;> simp [findRegister]
  · rfl

theorem update_temperature_data_params (d : CircularApiData) :
    (update_temperature_data d).params = d.params := by
  unfold update_temperature_data
  split
  · rfl
  · split
    · rfl
    · split <;> rfl

theorem update_temperature_data_status (d : CircularApiData) :
    (update_temperature_data d).status = d.status := by
  unfold update_temperature_data
  split
  · rfl
  · split
    · rfl
    · split <;> rfl

theorem update_temperature_data_changed_fields (d : CircularApiData) :
    (update_temperature_data d).changed_fields = d.changed_fields := by
  unfold update_temperature_data
  split
  · rfl
  · split
    · rfl
    · split <;> rfl

theorem decode_alarms_preserves (d : CircularApiData) :
    ((decode_alarms d).1).params = d.params
    ∧ ((decode_alarms d).1).status = d.status
    ∧ ((decode_alarms d).1).changed_fields = d.changed_fields := by
  unfold decode_alarms
  repeat' split
  all_goals exact ⟨rfl, rfl, rfl⟩

theorem decode_fan_speed_preserves (d : CircularApiData) :
    ((decode_fan_speed d).1).params = d.params
    ∧ ((decode_fan_speed d).1).status = d.status
    ∧ ((decode_fan_speed d).1).changed_fields = d.changed_fields := by
  unfold decode_fan_speed
  split
  all_goals exact ⟨rfl, rfl, rfl⟩

theorem update_alarm_data_preserves (d : CircularApiData) :
    ((update_alarm_data d).1).params = d.params
    ∧ ((update_alarm_data d).1).status = d.status
    ∧ ((update_alarm_data d).1).changed_fields = d.changed_fields := by
  unfold update_alarm_data
  have h1 := decode_alarms_preserves d
  rcases hA : decode_alarms d with ⟨d1, e1⟩
  rw [hA] at h1
  have h2 := decode_fan_speed_preserves d1
  rcases hF : decode_fan_speed d1 with ⟨d2, e2⟩
  rw [hF] at h2
  cases e1 with
  | some pe =>
    cases pe with
    | winetAPIError m => exact h1
    | valueError => exact h1
  | none =>
    show ((match decode_fan_speed d1 with
      | (d2, some (PyError.winetAPIError _)) => (d2, none)
      | (d2, e) => (d2, e) : CircularApiData × Option PyError)).1.params = d.params
    ∧ ((match decode_fan_speed d1 with
      | (d2, some (PyError.winetAPIError _)) => (d2, none)
      | (d2, e) => (d2, e) : CircularApiData × Option PyError)).1.status = d.status
    ∧ ((match decode_fan_speed d1 with
      | (d2, some (PyError.winetAPIError _)) => (d2, none)
      | (d2, e) => (d2, e) : CircularApiData × Option PyError)).1.changed_fields
        = d.changed_fields
    rw [hF]
    cases e2 with
    | some pe =>
      cases pe with
      | winetAPIError m =>
        exact ⟨h2.1.trans h1.1, h2.2.1.trans h1.2.1, h2.2.2.trans h1.2.2⟩
      | valueError =>
        exact ⟨h2.1.trans h1.1, h2.2.1.trans h1.2.1, h2.2.2.trans h1.2.2⟩
    | none =>
      exact ⟨h2.1.trans h1.1, h2.2.1.trans h1.2.1, h2.2.2.trans h1.2.2⟩

theorem categoryStep_params (d : CircularApiData)
    (c : Option WinetRegisterCategory) :
    ((categoryStep d c).1).params = d.params := by
  unfold categoryStep
  split_ifs with h2 h6 h4
  · exact update_temperature_data_params d
  · have hp := (update_alarm_data_preserves d).1
    rcases hA : update_alarm_data d with ⟨d3, e⟩
    rw [hA] at hp
    match e with
    | none => exact hp
    | some PyError.valueError => exact hp
    | some (PyError.winetAPIError m) => exact hp
  · rfl
  · rfl

theorem statusStep_params (d : CircularApiData) :
    ((statusStep d).1).params = d.params := by
  unfold statusStep
  split <;> rfl

theorem update_params (d : CircularApiData) (nd : WinetGetRegisterResult)
    (c : Option WinetRegisterCategory) :
    ((d.update nd c).1).params = merge_params_efficiently d.params nd.params := by
  unfold CircularApiData.update
  split
  · rfl
  · rename_i m hm
    have hp := categoryStep_params { applyMetadata d nd with model := m } c
    rcases hC : categoryStep { applyMetadata d nd with model := m } c with ⟨d3, e⟩
    rw [hC] at hp
    match e with
    | some e => exact hp
    | none => rw [statusStep_params]; exact hp

theorem specOverwriteMerge_apply (ps : Params) :
    ∀ (m : ℤ → Option ℤ) (k : ℤ),
      specOverwriteMerge m ps k =
        match findRegister ps.reverse k with
        | some v => some v
        | none => m k := by
  induction ps with
  | nil => intro m k; rfl
  | cons p rest ih =>
    intro m k
    show specOverwriteMerge (Function.update m p.1 (some p.2)) rest k = _
    rw [ih, List.reverse_cons, findRegister_append]
    cases hr : findRegister rest.reverse k
    · by_cases hk : k = p.1
      · simp [findRegister, Function.update_apply, hk]
      · simp [findRegister, Function.update_apply, hk, Ne.symm hk]
    · rfl

theorem applyUpdates_keys_nodup
    (snaps : List (WinetGetRegisterResult × Option WinetRegisterCategory)) :
    ∀ d : CircularApiData, (d.params.map Prod.fst).Nodup →
      (((applyUpdates d snaps).params).map Prod.fst).Nodup := by
  induction snaps with
  | nil => intro d h; exact h
  | cons s rest ih =>
    intro d h
    exact ih _ (by rw [update_params]; exact merge_keys_nodup _ _)

theorem applyUpdates_lookup
    (snaps : List (WinetGetRegisterResult × Option WinetRegisterCategory)) :
    ∀ d : CircularApiData, (d.params.map Prod.fst).Nodup → ∀ k : ℤ,
      findRegister (applyUpdates d snaps).params k =
        (snaps.map (fun s => s.1.params)).foldl specOverwriteMerge
          (fun j => findRegister d.params j) k := by
  induction snaps with
  | nil => intro d _ k; rfl
  | cons s rest ih =>
    intro d hnd k
    show findRegister (applyUpdates ((d.update s.1 s.2).1) rest).params k = _
    have hparams := update_params d s.1 s.2
    have hnodup : ((((d.update s.1 s.2).1).params).map Prod.fst).Nodup := by
      rw [hparams]; exact merge_keys_nodup _ _
    rw [ih _ hnodup k]
    have hinit : (fun j => findRegister ((d.update s.1 s.2).1).params j)
        = specOverwriteMerge (fun j => findRegister d.params j) s.1.params := by
      funext j
      rw [hparams, findRegister_merge, specOverwriteMerge_apply]
      cases hn : findRegister s.1.params.reverse j
      · exact findRegister_reverse_eq_of_nodup d.params hnd j
      · rfl
    rw [List.map_cons, List.foldl_cons, hinit]

theorem pyint_intCast (n : ℤ) : pyint (n : ℚ) = n := by
  simp [pyint]

theorem pyint_clamp_intCast (n lo hi : ℤ) :
    pyint (clamp (n : ℚ) (lo : ℚ) (hi : ℚ)) = max lo (min n hi) := by
  have : (clamp (n : ℚ) (lo : ℚ) (hi : ℚ)) = ((max lo (min n hi) : ℤ) : ℚ) := by
    unfold clamp
    push_cast
    ring_nf
  rw [this, pyint_intCast]

/-- C4, claim as stated by the spec: a setter "transmits the input clamped
to [min,max]". On integer inputs this is `max lo (min n hi)`. -/
theorem set_power_transmits (n : ℤ) :
    (set_power (n : ℚ)).value = max MIN_POWER (min n MAX_POWER) := by
  simp only [set_power, pyint_intCast, pyint_clamp_intCast]

theorem set_fan_speed_transmits (n : ℤ) :
    (set_fan_speed (n : ℚ)).value = max MIN_FAN_SPEED (min n MAX_FAN_SPEED) := by
  simp only [set_fan_speed, pyint_intCast, pyint_clamp_intCast]

theorem set_temperature_transmits (n : ℤ) :
    (set_temperature (n : ℚ)).value = max MIN_THERMOSTAT_TEMP (min n MAX_THERMOSTAT_TEMP) := by
  simp only [set_temperature, pyint_clamp_intCast]

/-- C4: every numeric setter silently clamps: `set_power` transmits the
input clamped to [1,5], `set_fan_speed` clamped to [0,6],
`set_temperature` clamped to [5,40] (no error paths exist: the setters are
total functions); in particular `set_power 0` transmits 1, `set_power 10`
transmits 5, `set_temperature (-5)` transmits 5 and `set_temperature 99`
transmits 40. -/
theorem c4_setters_silent_clamping :
    (∀ n : ℤ, (set_power (n : ℚ)).value = max 1 (min n 5)
      ∧ 1 ≤ (set_power (n : ℚ)).value ∧ (set_power (n : ℚ)).value ≤ 5)
    ∧ (∀ n : ℤ, (set_fan_speed (n : ℚ)).value = max 0 (min n 6)
      ∧ 0 ≤ (set_fan_speed (n : ℚ)).value ∧ (set_fan_speed (n : ℚ)).value ≤ 6)
    ∧ (∀ n : ℤ, (set_temperature (n : ℚ)).value = max 5 (min n 40)
      ∧ 5 ≤ (set_temperature (n : ℚ)).value ∧ (set_temperature (n : ℚ)).value ≤ 40)
    ∧ (set_power 0).value = 1 ∧ (set_power 10).value = 5
    ∧ (set_temperature (-5)).value = 5 ∧ (set_temperature 99).value = 40 := by
  refine ⟨fun n => ?_, fun n => ?_, fun n => ?_, ?_, ?_, ?_, ?_⟩
  · have h := set_power_transmits n
    simp only [MIN_POWER, MAX_POWER] at h
    exact ⟨h, by rw [h]; exact le_max_left _ _, by rw [h]; omega⟩
  · have h := set_fan_speed_transmits n
    simp only [MIN_FAN_SPEED, MAX_FAN_SPEED] at h
    exact ⟨h, by rw [h]; exact le_max_left _ _, by rw [h]; omega⟩
  · have h := set_temperature_transmits n
    simp only [MIN_THERMOSTAT_TEMP, MAX_THERMOSTAT_TEMP] at h
    exact ⟨h, by rw [h]; exact le_max_left _ _, by rw [h]; omega⟩
  · decide
  · decide
  · decide
  · decide

/-- C7: `get_changed_fields` returns the accumulated changed-fields set and
clears it, so a second drain with no intervening update returns `∅`. -/
theorem c7_drain_clears (d : CircularApiData) :
    (d.get_changed_fields).1 = d.changed_fields
    ∧ ((d.get_changed_fields).2).changed_fields = ∅
    ∧ (((d.get_changed_fields).2).get_changed_fields).1 = ∅ :=
  ⟨rfl, rfl, rfl⟩

/-- C5: `turn_on` issues zero requests unless the status is `OFF` and
exactly one `CHANGE_STATUS` request when it is; `turn_off` issues zero
requests when the status is `OFF` and exactly one `CHANGE_STATUS` request
otherwise; the issued request is the same toggle in both cases. -/
theorem c5_turn_on_off_requests (d : CircularApiData) :
    (d.status ≠ CircularDeviceStatus.OFF → turn_on d = [])
    ∧ (d.status = CircularDeviceStatus.OFF →
        turn_on d = [WinetRequest.getRegisters .CHANGE_STATUS .NONE])
    ∧ (d.status = CircularDeviceStatus.OFF → turn_off d = [])
    ∧ (d.status ≠ CircularDeviceStatus.OFF →
        turn_off d = [WinetRequest.getRegisters .CHANGE_STATUS .NONE]) := by
  unfold turn_on turn_off
  refine ⟨fun h => if_pos h, fun h => ?_, fun h => if_pos h, fun h => if_neg h⟩
  rw [if_neg (by simp [h])]

theorem c5_turn_on_off_requests_witness :
    turn_on (initApiData "host") = []
    ∧ turn_off (initApiData "host")
        = [WinetRequest.getRegisters .CHANGE_STATUS .NONE] :=
  ⟨(c5_turn_on_off_requests (initApiData "host")).1 (by decide),
   (c5_turn_on_off_requests (initApiData "host")).2.2.2 (by decide)⟩

/-- C8 counterexample: on the empty (present-but-empty) mapping, the errors
raised for two different register ids are identical, so the requested id is
not identifiable in the raised error (it only reaches the logger). -/
theorem c8_counterexample :
    get_register_value [] .STATUS = get_register_value [] .ALARMS_BITS
    ∧ (WinetRegister.STATUS.value == WinetRegister.ALARMS_BITS.value) = false
    ∧ get_register_value [] .STATUS
        = .error (.winetAPIError "RegisterId not found in data") :=
  ⟨rfl, by decide, rfl⟩

/-- C8 amended: looking up a register id absent from the mapping (also on a
present-but-empty mapping) raises `WinetAPIError` with the fixed message
"RegisterId not found in data" — distinct from any `ok` result, in
particular from a legitimately stored zero; but the requested id is not
carried in the raised error. -/
theorem c8_register_not_found (params : Params) (rid : WinetRegister)
    (h : findRegister params rid.value = none) :
    get_register_value params rid
      = .error (.winetAPIError "RegisterId not found in data")
    ∧ ∀ v : ℤ, get_register_value params rid ≠ .ok v := by
  unfold get_register_value
  rw [h]
  exact ⟨rfl, fun v => by simp⟩

theorem c8_register_not_found_witness :
    findRegister [] WinetRegister.STATUS.value = none
    ∧ get_register_value [] .STATUS
        = .error (.winetAPIError "RegisterId not found in data") :=
  ⟨rfl, (c8_register_not_found [] .STATUS rfl).1⟩

/-- C1: the eco-mode drive two-phase handshake. When disabled or with a
zero pending counter, `eco_mode_drive` is a no-op. When enabled with
counter ≥ 1: in `ECO_STOP` with counter exactly 1 and
`temperature_set - temperature_read ≤ delta` it issues exactly the one
write `set_temperature (temperature_read + delta)` and changes no state;
in `WORK` it resets the counter to 0 and re-issues exactly
`set_temperature temperature_set`; in every other case it does nothing. -/
theorem c1_eco_mode_drive_handshake (c : CircularApiClient) :
    ((c.data.eco_mode_drive_activated = false ∨ c.count_delta_ecomode_asked = 0) →
      eco_mode_drive c = (c, []))
    ∧ (c.data.eco_mode_drive_activated = true → 1 ≤ c.count_delta_ecomode_asked →
      ((c.data.status = CircularDeviceStatus.ECO_STOP
          ∧ c.count_delta_ecomode_asked = 1
          ∧ c.data.temperature_set - c.data.temperature_read ≤ (c.delta_ecomode : ℚ)) →
        eco_mode_drive c =
          (c, [set_temperature (c.data.temperature_read + (c.delta_ecomode : ℚ))]))
      ∧ (c.data.status = CircularDeviceStatus.WORK →
        eco_mode_drive c =
          ({ c with count_delta_ecomode_asked := 0 },
           [set_temperature c.data.temperature_set]))
      ∧ (¬ (c.data.status = CircularDeviceStatus.ECO_STOP
            ∧ c.count_delta_ecomode_asked = 1
            ∧ c.data.temperature_set - c.data.temperature_read ≤ (c.delta_ecomode : ℚ)) →
          c.data.status ≠ CircularDeviceStatus.WORK →
        eco_mode_drive c = (c, []))) := by
  unfold eco_mode_drive
  simp only [CircularApiData.is_ecomode_stop, CircularApiData.is_heating,
    decide_eq_true_eq]
  constructor
  · rintro (h | h)
    · rw [if_neg (by simp [h])]
    · rw [if_neg (by simp [h])]
  · intro hact hcnt
    rw [if_pos ⟨hact, by omega⟩]
    refine ⟨?_, ?_, ?_⟩
    · rintro ⟨hs, hc1, hle⟩
      rw [if_pos ⟨hs, hc1⟩, if_pos hle]
    · intro hw
      rw [if_neg (by rw [hw]; rintro ⟨h, -⟩; cases h), if_pos ⟨hw, by omega⟩]
    · intro hnot hnw
      by_cases h1 : c.data.status = CircularDeviceStatus.ECO_STOP
          ∧ c.count_delta_ecomode_asked = 1
      · rw [if_pos h1, if_neg (fun hle => hnot ⟨h1.1, h1.2, hle⟩)]
      · rw [if_neg h1, if_neg (by rintro ⟨h, -⟩; exact hnw h)]

theorem c1_eco_mode_drive_handshake_witness :
    (eco_mode_drive ecoClientExample).2 = [⟨50, 18⟩]
    ∧ (eco_mode_drive ecoClientExample).1 = ecoClientExample := by
  have h := ((c1_eco_mode_drive_handshake ecoClientExample).2 rfl (by decide)).1
    ⟨rfl, rfl, by norm_num [ecoClientExample, initApiData]⟩
  rw [h]
  refine ⟨?_, rfl⟩
  show [set_temperature ((16 : ℚ) + ((2 : ℤ) : ℚ))] = [⟨50, 18⟩]
  have h16 : (16 : ℚ) + ((2 : ℤ) : ℚ) = ((18 : ℤ) : ℚ) := by norm_num
  rw [h16]
  show [(⟨WinetRegister.TEMPERATURE_SET.value,
      pyint (clamp ((18 : ℤ) : ℚ) (MIN_THERMOSTAT_TEMP : ℚ) (MAX_THERMOSTAT_TEMP : ℚ))⟩ :
      SetRegisterCall)] = [⟨50, 18⟩]
  rw [pyint_clamp_intCast]
  decide

/-- C10: `set_temperature` clamps the float to [5,40] and then truncates to
an integer before transmission: the transmitted value never exceeds the
clamped float, the clamped float is less than the transmitted value plus
one (fractional part discarded, never rounded up), the transmitted value
always lies in [5,40], and `set_temperature 20.9` transmits 20. -/
theorem c10_set_temperature_truncates :
    (∀ q : ℚ, ((set_temperature q).value : ℚ) ≤ clamp q 5 40
      ∧ clamp q 5 40 < ((set_temperature q).value : ℚ) + 1
      ∧ 5 ≤ (set_temperature q).value ∧ (set_temperature q).value ≤ 40)
    ∧ (set_temperature (209/10)).value = 20 := by
  constructor
  · intro q
    have hlo : (5 : ℚ) ≤ clamp q 5 40 := le_max_left _ _
    have hhi : clamp q 5 40 ≤ 40 := by
      unfold clamp
      exact max_le (by norm_num) (min_le_right _ _)
    have hval : (set_temperature q).value = ⌊clamp q 5 40⌋ := by
      have h0 : (0 : ℚ) ≤ clamp q 5 40 := le_trans (by norm_num) hlo
      simp [set_temperature, pyint, MIN_THERMOSTAT_TEMP, MAX_THERMOSTAT_TEMP, h0,
        clamp]
    refine ⟨?_, ?_, ?_, ?_⟩
    · rw [hval]; exact Int.floor_le _
    · rw [hval]; exact Int.lt_floor_add_one _
    · rw [hval]
      exact (Int.le_floor).2 (by exact_mod_cast hlo)
    · rw [hval]
      calc ⌊clamp q 5 40⌋ ≤ ⌊(40 : ℚ)⌋ := Int.floor_le_floor hhi
        _ = 40 := by norm_num
  · show pyint (clamp (209/10 : ℚ) (MIN_THERMOSTAT_TEMP : ℚ) (MAX_THERMOSTAT_TEMP : ℚ)) = 20
    have hc : clamp (209/10 : ℚ) (MIN_THERMOSTAT_TEMP : ℚ) (MAX_THERMOSTAT_TEMP : ℚ)
        = 209/10 := by
      unfold clamp MIN_THERMOSTAT_TEMP MAX_THERMOSTAT_TEMP
      rw [min_eq_left (by norm_num), max_eq_right (by norm_num)]
    have hf : ⌊(209/10 : ℚ)⌋ = 20 := by
      rw [Int.floor_eq_iff]; norm_num
    rw [hc]
    unfold pyint
    rw [if_pos (by norm_num)]
    exact hf

/-- C3: the accumulated register mapping after feeding any sequence of
snapshots to `update` (starting from the initial state) equals,
register by register, the fold of plain dictionary-overwrite-merge over the
snapshots' pair lists; and a register id not present in a given snapshot
retains its value across that update. -/
theorem c3_merge_is_fold_of_overwrite (host : String)
    (snaps : List (WinetGetRegisterResult × Option WinetRegisterCategory))
    (k : ℤ) :
    findRegister (applyUpdates (initApiData host) snaps).params k
      = specFoldedMapping (snaps.map (fun s => s.1.params)) k
    ∧ ∀ (nd : WinetGetRegisterResult) (c : Option WinetRegisterCategory),
        k ∉ nd.params.map Prod.fst →
        findRegister
            (((applyUpdates (initApiData host) snaps).update nd c).1).params k
          = findRegister (applyUpdates (initApiData host) snaps).params k := by
  have hnd0 : ((((initApiData host).params).map Prod.fst)).Nodup := by
    simp [initApiData]
  constructor
  · rw [applyUpdates_lookup snaps _ hnd0 k]
    unfold specFoldedMapping
    have hbase : (fun j => findRegister (initApiData host).params j)
        = (fun _ => (none : Option ℤ)) := by
      funext j; rfl
    rw [hbase]
  · intro nd c hk
    have hD := applyUpdates_keys_nodup snaps (initApiData host) hnd0
    rw [update_params, findRegister_merge]
    have hn : findRegister nd.params.reverse k = none := by
      rw [findRegister_eq_none_iff, List.map_reverse, List.mem_reverse]
      exact hk
    rw [hn]
    exact findRegister_reverse_eq_of_nodup _ hD k

theorem c3_merge_is_fold_of_overwrite_witness :
    ((2 : ℤ) ∉ c9Snapshot.params.map Prod.fst)
    ∧ findRegister
        (((applyUpdates (initApiData "host") []).update c9Snapshot none).1).params 2
      = findRegister (applyUpdates (initApiData "host") []).params 2 :=
  ⟨by decide,
   (c3_merge_is_fold_of_overwrite "host" [] 2).2 c9Snapshot none (by decide)⟩

/-- C2 (code evaluated at the claim's inputs, `max_retries = 3`): two
transient failures followed by success return the payload after exactly 2
recorded retry delays; three consecutive transient failures propagate the
last underlying transient exception itself — re-raised by
`WinetAPIConnectionError.__init__`'s `if exc: raise exc` — which is not a
`WinetAPIConnectionError`, although the executor's docstring promises one. -/
theorem c2_retry_behaviour :
    execute_with_retry 3 scriptTwoFailThenOk = (.ok 42, 2)
    ∧ execute_with_retry 3 scriptAllFail = (.error (.underlying 2), 2)
    ∧ (RaisedException.underlying (2 : ℕ)).isConnectionError = false :=
  ⟨rfl, rfl, rfl⟩

theorem update_temperature_data_name (d : CircularApiData) :
    (update_temperature_data d).name = d.name := by
  unfold update_temperature_data
  split
  · rfl
  · split
    · rfl
    · split <;> rfl

theorem update_temperature_data_signal (d : CircularApiData) :
    (update_temperature_data d).signal = d.signal := by
  unfold update_temperature_data
  split
  · rfl
  · split
    · rfl
    · split <;> rfl

theorem update_temperature_data_read (d : CircularApiData) (v : ℤ)
    (h : findRegister d.params WinetRegister.TEMPERATURE_PROBE.value = some v) :
    (update_temperature_data d).temperature_read = (v : ℚ) := by
  unfold update_temperature_data get_register_value
  rw [h]
  split
  · rename_i heq
    simp at heq
  · rename_i v' heq
    simp at heq
    subst heq
    split
    · rfl
    · split <;> rfl

theorem update_eq_of_model (d : CircularApiData) (nd : WinetGetRegisterResult)
    (c : Option WinetRegisterCategory) (m : WinetProductModel)
    (hm : WinetProductModel.ofCode? nd.model = some m) :
    d.update nd c =
      match categoryStep { applyMetadata d nd with model := m } c with
      | (d3, some e) => (d3, some e)
      | (d3, none) => statusStep d3 := by
  unfold CircularApiData.update
  rw [hm]

theorem update_eq_of_model_none (d : CircularApiData)
    (nd : WinetGetRegisterResult) (c : Option WinetRegisterCategory)
    (hm : WinetProductModel.ofCode? nd.model = none) :
    d.update nd c = (applyMetadata d nd, some .valueError) := by
  unfold CircularApiData.update
  rw [hm]

theorem categoryStep_cat2 (d : CircularApiData) :
    categoryStep d (some .POLL_CATEGORY_2) =
      ({ update_temperature_data d with
          changed_fields := (update_temperature_data d).changed_fields ∪
            {"temperature_read", "temperature_set", "power_set", "status"} },
       none) := by
  unfold categoryStep
  rw [if_pos rfl]

theorem categoryStep_cat4 (d : CircularApiData) :
    categoryStep d (some .POLL_CATEGORY_4) =
      ({ d with changed_fields := insert "fan_configuration" d.changed_fields },
       none) := by
  unfold categoryStep
  rw [if_neg (by decide), if_neg (by decide), if_pos rfl]

theorem categoryStep_cat6 (d : CircularApiData) :
    categoryStep d (some .POLL_CATEGORY_6) =
      match update_alarm_data d with
      | (d3, some e) => (d3, some e)
      | (d3, none) =>
        ({ d3 with changed_fields := d3.changed_fields ∪
            {"alarms", "fan_speed"} }, none) := by
  unfold categoryStep
  rw [if_neg (by decide), if_pos rfl]

theorem categoryStep_other (d : CircularApiData)
    (c : Option WinetRegisterCategory)
    (h2 : c ≠ some .POLL_CATEGORY_2) (h6 : c ≠ some .POLL_CATEGORY_6)
    (h4 : c ≠ some .POLL_CATEGORY_4) :
    categoryStep d c = (d, none) := by
  unfold categoryStep
  rw [if_neg h2, if_neg h6, if_neg h4]

theorem statusStep_of_absent (d : CircularApiData)
    (h : findRegister d.params WinetRegister.STATUS.value = none) :
    statusStep d = (d, none) := by
  unfold statusStep decode_status_value get_register_value
  rw [h]

theorem statusStep_of_found (d : CircularApiData) (v : ℤ)
    (s : CircularDeviceStatus)
    (hv : findRegister d.params WinetRegister.STATUS.value = some v)
    (hs : CircularDeviceStatus.ofCode? v = some s) :
    statusStep d =
      ({ d with status := s,
                changed_fields := insert "status" d.changed_fields }, none) := by
  unfold statusStep decode_status_value get_register_value
  rw [hv]
  split
  · rename_i s' heq
    simp [hs] at heq
    subst heq
    rfl
  · rename_i msg heq
    simp [hs] at heq
  · rename_i heq
    simp [hs] at heq

theorem statusStep_changed_fields (d : CircularApiData)
    (hok : (statusStep d).2 = none) :
    ((statusStep d).1).changed_fields
      = d.changed_fields ∪ statusMarker d.params := by
  cases hf : findRegister d.params WinetRegister.STATUS.value with
  | none =>
    rw [statusStep_of_absent d hf]
    unfold statusMarker
    rw [hf, Finset.union_empty]
  | some v =>
    cases hs : CircularDeviceStatus.ofCode? v with
    | none =>
      unfold statusStep decode_status_value get_register_value at hok
      rw [hf] at hok
      simp [hs] at hok
    | some s =>
      rw [statusStep_of_found d v s hf hs]
      unfold statusMarker
      rw [hf, Finset.insert_eq, Finset.union_comm]

theorem update_changed_fields_of_empty (d : CircularApiData)
    (nd : WinetGetRegisterResult) (cat : Option WinetRegisterCategory)
    (hcf : d.changed_fields = ∅)
    (hok : (d.update nd cat).2 = none) :
    ((d.update nd cat).1).changed_fields
      = catFields cat ∪
        statusMarker (merge_params_efficiently d.params nd.params) := by
  cases hm : WinetProductModel.ofCode? nd.model with
  | none =>
    rw [update_eq_of_model_none d nd cat hm] at hok
    simp at hok
  | some m =>
    have hupd := update_eq_of_model d nd cat m hm
    rcases hC : categoryStep { applyMetadata d nd with model := m } cat with ⟨d3, e⟩
    rw [hC] at hupd
    cases e with
    | some e0 =>
      have h2 : (d.update nd cat).2 = some e0 := by rw [hupd]
      rw [h2] at hok
      simp at hok
    | none =>
      have h2 : d.update nd cat = statusStep d3 := by rw [hupd]
      have hok3 : (statusStep d3).2 = none := by rw [← h2]; exact hok
      rw [h2, statusStep_changed_fields d3 hok3]
      match cat with
      | some WinetRegisterCategory.POLL_CATEGORY_2 =>
        rw [categoryStep_cat2, Prod.mk.injEq] at hC
        obtain ⟨h3, -⟩ := hC
        subst h3
        show ((update_temperature_data { applyMetadata d nd with model := m }).changed_fields
            ∪ {"temperature_read", "temperature_set", "power_set", "status"})
            ∪ statusMarker
              ((update_temperature_data { applyMetadata d nd with model := m }).params) = _
        rw [update_temperature_data_changed_fields, update_temperature_data_params]
        show (d.changed_fields ∪ {"temperature_read", "temperature_set", "power_set", "status"})
            ∪ statusMarker (merge_params_efficiently d.params nd.params) = _
        rw [hcf, Finset.empty_union]
        rfl
      | some WinetRegisterCategory.POLL_CATEGORY_6 =>
        rw [categoryStep_cat6] at hC
        have hq := update_alarm_data_preserves { applyMetadata d nd with model := m }
        rcases hA : update_alarm_data { applyMetadata d nd with model := m } with ⟨dA, eA⟩
        rw [hA] at hC hq
        cases eA with
        | some e' => simp at hC
        | none =>
          rw [Prod.mk.injEq] at hC
          obtain ⟨h3, -⟩ := hC
          subst h3
          show (dA.changed_fields ∪ {"alarms", "fan_speed"})
              ∪ statusMarker dA.params = _
          rw [hq.2.2, hq.1]
          show (d.changed_fields ∪ {"alarms", "fan_speed"})
              ∪ statusMarker (merge_params_efficiently d.params nd.params) = _
          rw [hcf, Finset.empty_union]
          rfl
      | some WinetRegisterCategory.POLL_CATEGORY_4 =>
        rw [categoryStep_cat4, Prod.mk.injEq] at hC
        obtain ⟨h3, -⟩ := hC
        subst h3
        show (insert "fan_configuration"
            ({ applyMetadata d nd with model := m }).changed_fields)
            ∪ statusMarker (({ applyMetadata d nd with model := m }).params) = _
        show (insert "fan_configuration" d.changed_fields)
            ∪ statusMarker (merge_params_efficiently d.params nd.params) = _
        rw [hcf]
        rfl
      | some WinetRegisterCategory.NONE =>
        rw [categoryStep_other _ _ (by decide) (by decide) (by decide),
          Prod.mk.injEq] at hC
        obtain ⟨h3, -⟩ := hC
        subst h3
        show ({ applyMetadata d nd with model := m }).changed_fields
            ∪ statusMarker (({ applyMetadata d nd with model := m }).params) = _
        show d.changed_fields
            ∪ statusMarker (merge_params_efficiently d.params nd.params) = _
        rw [hcf]
        rfl
      | none =>
        rw [categoryStep_other _ _ (by simp) (by simp) (by simp),
          Prod.mk.injEq] at hC
        obtain ⟨h3, -⟩ := hC
        subst h3
        show ({ applyMetadata d nd with model := m }).changed_fields
            ∪ statusMarker (({ applyMetadata d nd with model := m }).params) = _
        show d.changed_fields
            ∪ statusMarker (merge_params_efficiently d.params nd.params) = _
        rw [hcf]
        rfl

/-- C6 counterexample: a second identical category-2 update after a drain
still marks fields changed — the second drain contains "status" (and the
three temperature field names), so it is not the empty set the claim
predicts. -/
theorem c6_counterexample :
    "status" ∈ secondDrain (initApiData "host") c6Snapshot
      (some WinetRegisterCategory.POLL_CATEGORY_2) := by
  decide

/-- C6 amended: applying `update` twice in a row with the same category and
identical data, with a drain after the first update, leaves the
changed-fields set equal to the category's fixed decoded-field-name set
plus "status" whenever the status register is present — the set tracks the
fields touched by decoding, not value changes — so the drain after the
second update is empty only for a category with no decode step and an
absent status register, never for a decode category. -/
theorem c6_second_drain_value (d : CircularApiData)
    (nd : WinetGetRegisterResult) (cat : Option WinetRegisterCategory)
    (hok : ((((d.update nd cat).1.get_changed_fields).2).update nd cat).2 = none) :
    secondDrain d nd cat
      = catFields cat ∪ statusMarker
          (merge_params_efficiently
            ((((d.update nd cat).1.get_changed_fields).2)).params nd.params) :=
  update_changed_fields_of_empty _ nd cat rfl hok

theorem c6_second_drain_value_witness :
    (((((initApiData "host").update c6Snapshot
          (some WinetRegisterCategory.POLL_CATEGORY_2)).1.get_changed_fields).2).update
        c6Snapshot (some WinetRegisterCategory.POLL_CATEGORY_2)).2 = none
    ∧ secondDrain (initApiData "host") c6Snapshot
        (some WinetRegisterCategory.POLL_CATEGORY_2)
      = catFields (some WinetRegisterCategory.POLL_CATEGORY_2) ∪ statusMarker
          (merge_params_efficiently
            (((((initApiData "host").update c6Snapshot
              (some WinetRegisterCategory.POLL_CATEGORY_2)).1.get_changed_fields).2)).params
            c6Snapshot.params) :=
  ⟨by decide, c6_second_drain_value _ _ _ (by decide)⟩

/-- C9: a category-2 update whose merged mapping lacks the status register
does not raise: the status decode failure is swallowed, the merge and
metadata take effect, the temperature decode takes effect (when its
register is present in the merged mapping), the category field names are
marked changed, and the status field keeps its previously known value. -/
theorem c9_status_decode_nonfatal (d : CircularApiData)
    (nd : WinetGetRegisterResult) (m : WinetProductModel)
    (hm : WinetProductModel.ofCode? nd.model = some m)
    (habs : findRegister (merge_params_efficiently d.params nd.params)
        WinetRegister.STATUS.value = none) :
    (d.update nd (some .POLL_CATEGORY_2)).2 = none
    ∧ ((d.update nd (some .POLL_CATEGORY_2)).1).status = d.status
    ∧ ((d.update nd (some .POLL_CATEGORY_2)).1).params
        = merge_params_efficiently d.params nd.params
    ∧ ((d.update nd (some .POLL_CATEGORY_2)).1).name = nd.name
    ∧ ((d.update nd (some .POLL_CATEGORY_2)).1).signal = nd.signal
    ∧ (∀ v : ℤ, findRegister (merge_params_efficiently d.params nd.params)
          WinetRegister.TEMPERATURE_PROBE.value = some v →
        ((d.update nd (some .POLL_CATEGORY_2)).1).temperature_read = (v : ℚ))
    ∧ "temperature_read" ∈ ((d.update nd (some .POLL_CATEGORY_2)).1).changed_fields := by
  have hupd : d.update nd (some .POLL_CATEGORY_2)
      = statusStep { update_temperature_data { applyMetadata d nd with model := m } with
          changed_fields :=
            (update_temperature_data { applyMetadata d nd with model := m }).changed_fields ∪
              {"temperature_read", "temperature_set", "power_set", "status"} } := by
    rw [update_eq_of_model d nd _ m hm, categoryStep_cat2]
  have hp3 : (update_temperature_data { applyMetadata d nd with model := m }).params
      = merge_params_efficiently d.params nd.params :=
    update_temperature_data_params _
  have habs3 : findRegister
      ({ update_temperature_data { applyMetadata d nd with model := m } with
          changed_fields :=
            (update_temperature_data { applyMetadata d nd with model := m }).changed_fields ∪
              {"temperature_read", "temperature_set", "power_set", "status"} }).params
      WinetRegister.STATUS.value = none := by
    show findRegister
      (update_temperature_data { applyMetadata d nd with model := m }).params
      WinetRegister.STATUS.value = none
    rw [update_temperature_data_params]
    exact habs
  rw [hupd, statusStep_of_absent _ habs3]
  refine ⟨rfl, ?_, ?_, ?_, ?_, ?_, ?_⟩
  · exact update_temperature_data_status _
  · exact hp3
  · exact update_temperature_data_name _
  · exact update_temperature_data_signal _
  · intro v hv
    exact update_temperature_data_read _ v hv
  · show "temperature_read" ∈
      (update_temperature_data { applyMetadata d nd with model := m }).changed_fields ∪
        {"temperature_read", "temperature_set", "power_set", "status"}
    exact Finset.mem_union.2 (Or.inr (by decide))

theorem c9_status_decode_nonfatal_witness :
    WinetProductModel.ofCode? c9Snapshot.model = some WinetProductModel.UNSET
    ∧ ((initApiData "host").update c9Snapshot (some .POLL_CATEGORY_2)).2 = none
    ∧ (((initApiData "host").update c9Snapshot (some .POLL_CATEGORY_2)).1).status
        = (initApiData "host").status
    ∧ (((initApiData "host").update c9Snapshot (some .POLL_CATEGORY_2)).1).temperature_read
        = ((21 : ℤ) : ℚ) := by
  have h := c9_status_decode_nonfatal (initApiData "host") c9Snapshot
    WinetProductModel.UNSET rfl (by decide)
  exact ⟨rfl, h.1, h.2.1, h.2.2.2.2.2.1 21 (by decide)⟩

end Circular
